import Mathlib

/-!
Verification of the `ine_python` client (`src/ine_python/__init__.py`).

The client translates a logical query (series id, optional date
specification, optional `last` count, optional `geo` flag) into request
parameters, issues one HTTP GET, and reshapes the JSON response's `Data`
array into an ordered sequence of (Fecha, Valor) records.

Embedding conventions:
* The HTTP transport is injected as a function `Request → Payload`.
* A JSON object in the `Data` array is an association list from field
  name to value; a value is a JSON number (modelled by `Rat`, exact for
  every value the claims exercise; `float64` rounding is not modelled)
  or a JSON string, which the `astype` casts must parse — an
  unparseable present cell raises `ValueError`.  The parsers model the
  subsets of pandas's grammars spelled out at their definitions.
* `datetime64[ms]` timestamps are modelled as `Int` milliseconds since
  the epoch; a missing cell (pandas `NaN` / `NaT`) is `Option.none`.
* Python exceptions surface as `Except` errors; a call with the wrong
  number of positional arguments fails at binding (`TypeError`) before
  its body runs.
-/

namespace IneClient

/-- A JSON value inside a `Data` element: a number (modelled by `Rat`)
or a string (which the `astype` casts must parse). -/
inductive JVal where
  | num (v : Rat)
  | str (s : String)
deriving DecidableEq, Repr

/-- One element of the response's `Data` array: a JSON object, as an
association list from field name to value. -/
abbrev JObj := List (String × JVal)

/-- Field lookup in a JSON object (first binding wins, as in a dict). -/
def JObj.get (o : JObj) (k : String) : Option JVal :=
  (o.find? (fun p => p.1 == k)).map (fun p => p.2)

/-- The JSON response payload as far as `get_series` inspects it: the
`Data` field, when present, is a list of objects.  `series_dict["Data"]`
raises `KeyError` when the field is absent, hence the `Option`. -/
structure Payload where
  data : Option (List JObj)
deriving DecidableEq, Repr

/-- The parameter dictionary built by `get_series`.  The code can only
ever insert the keys `date`, `last` and `geo`, each exactly when the
corresponding argument is not `None`; a `none` field models an absent
key. -/
structure Params where
  date : Option String
  last : Option Int
  geo : Option Int
deriving DecidableEq, Repr

/-- One HTTP GET request as issued by `get_input`: the full URL and the
query parameters. -/
structure Request where
  url : String
  params : Params
deriving DecidableEq, Repr

/-- The `date` argument of `get_series`: Python's `None`, a single date
string, a `slice(start, stop)`, or a list of date strings. -/
inductive DateSpec where
  | none
  | str (d : String)
  | slice (start stop : Option String)
  | list (ds : List String)
deriving DecidableEq, Repr

/-- Errors raised while decoding a response. `keyError k` models a
Python `KeyError` on key (or column set) `k`; `valueError` models the
`ValueError` that `astype` raises on a present cell it cannot parse.
No other exception type is raised on the decode path, and neither kind
carries the offending element's position. -/
inductive DecodeError where
  | keyError (k : String)
  | valueError
deriving DecidableEq, Repr

/-- One row of the returned frame after
`astype({Fecha: datetime64[ms], Valor: float64}).set_index("Fecha")`:
the index cell `Fecha` (ms since epoch, `none` = `NaT`) and the value
cell `Valor` (`none` = `NaN`). -/
structure SeriesRecord where
  fecha : Option Int
  valor : Option Rat
deriving DecidableEq, Repr

/-- Numeric value of a nonempty list of decimal digit characters;
`none` when empty or when any character is not a digit. -/
def digitsVal? (cs : List Char) : Option Nat :=
  if cs.isEmpty || !cs.all Char.isDigit then Option.none
  else some (cs.foldl (fun a c => a * 10 + (c.toNat - 48)) 0)

/-- Splitting of a character list at every occurrence of a separator
character (the list of groups between separators, empty groups
kept). -/
def splitChars (sep : Char) : List Char → List (List Char)
  | [] => [[]]
  | c :: rest =>
    match splitChars sep rest with
    | [] => if c == sep then [[], []] else [[c]]
    | g :: gs => if c == sep then [] :: g :: gs else (c :: g) :: gs

/-- Parsing of a decimal numeral string for the `float64` cast,
modelling the sign-digits-optional-fraction subset of Python's `float`
grammar (exponents and specials are not modelled); `none` when the
string does not parse, the path on which `astype` raises
`ValueError`. -/
def floatParse? (s : String) : Option Rat :=
  let (sign, body) : Rat × List Char :=
    match s.data with
    | '-' :: rest => (-1, rest)
    | cs => (1, cs)
  match splitChars '.' body with
  | [ip] => (digitsVal? ip).map (fun n => sign * (n : Rat))
  | [ip, fp] =>
    match digitsVal? ip, digitsVal? fp with
    | some n, some f =>
      some (sign * ((n : Rat) + (f : Rat) / ((10 : Rat) ^ fp.length)))
    | _, _ => Option.none
  | _ => Option.none

/-- Leap-year test of the proleptic Gregorian calendar. -/
def isLeap (y : Int) : Bool :=
  (y % 4 == 0 && y % 100 != 0) || y % 400 == 0

/-- Number of days of month `m` in year `y`. -/
def daysInMonth (y : Int) (m : Nat) : Nat :=
  if m = 2 then (if isLeap y then 29 else 28)
  else if m = 4 ∨ m = 6 ∨ m = 9 ∨ m = 11 then 30
  else 31

/-- Days since 1970-01-01 of a proleptic-Gregorian civil date
(the standard days-from-civil computation). -/
def daysFromCivil (y : Int) (m d : Nat) : Int :=
  let y2 : Int := if m ≤ 2 then y - 1 else y
  let era : Int := (if 0 ≤ y2 then y2 else y2 - 399) / 400
  let yoe : Int := y2 - era * 400
  let mp : Int := ((m : Int) + 9) % 12
  let doy : Int := (153 * mp + 2) / 5 + (d : Int) - 1
  let doe : Int := yoe * 365 + yoe / 4 - yoe / 100 + doy
  era * 146097 + doe - 719468

/-- Parsing of a date string for the `datetime64[ms]` cast, modelling
the ISO `YYYY-MM-DD` (midnight) subset of pandas's datetime-string
grammar — the result is the date's milliseconds since the epoch;
`none` when the string does not parse (as for `"abc"` in pandas), the
path on which `astype` raises `ValueError`. -/
def dateParse? (s : String) : Option Int :=
  match splitChars '-' s.data with
  | [ys, ms, ds] =>
    match digitsVal? ys, digitsVal? ms, digitsVal? ds with
    | some y, some m, some d =>
      if ys.length = 4 ∧ 1 ≤ m ∧ m ≤ 12 ∧ 1 ≤ d
          ∧ d ≤ daysInMonth (y : Int) m
      then some (daysFromCivil (y : Int) m d * 86400000)
      else Option.none
    | _, _, _ => Option.none
  | _ => Option.none

/-- Model of the cast `astype("datetime64[ms]")` on one present cell:
a number becomes the integer millisecond timestamp (integral for every
payload the service emits; a fractional value floors); a string must
parse as a date, else the cast fails (pandas `ValueError`). -/
def fechaCast : JVal → Option Int
  | .num v => some v.floor
  | .str s => dateParse? s

/-- Model of the cast `astype("float64")` on one present cell: a
number is kept (`float64` modelled by `Rat`); a string must parse as a
decimal numeral, else the cast fails (pandas `ValueError`). -/
def valorCast : JVal → Option Rat
  | .num v => some v
  | .str s => floatParse? s

/-- The client object: its only state is the `endpoint` base URL set in
`__init__` and overwritten by `set_language`. -/
structure INE where
  endpoint : String
deriving DecidableEq, Repr

/-- Python `INE.__init__`: `idioma = "ES"`;
`self.endpoint = f"https://servicios.ine.es/wstempus/js/{idioma}"`. -/
def INE.init : INE :=
  let idioma := "ES"
  { endpoint := "https://servicios.ine.es/wstempus/js/" ++ idioma }

/-- Python `INE.set_language`:
`self.endpoint = f"https://servicios.ine.es/wstempus/js/{language}"`. -/
def INE.set_language (_ : INE) (language : String) : INE :=
  { endpoint := "https://servicios.ine.es/wstempus/js/" ++ language }

/-- The request issued by `get_input`:
GET `f"{self.endpoint}/{input_str}"` with `params` as the query. -/
def INE.get_input_req (ine : INE) (input_str : String) (params : Params) :
    Request :=
  { url := ine.endpoint ++ "/" ++ input_str, params := params }

/-- The parameter-building block of `get_series` (lines 100-114):
a `slice` becomes `f"{init}:{end}"` with `None` bounds rendered `""`;
a `list` becomes `"&".join(["date={d}" for d in date])` — note the
joined element is the *literal* string `"date={d}"` (no f-prefix in the
source), so the dates themselves never appear; each of `date`, `last`
and `geo` is inserted into the dict exactly when not `None`. -/
def buildParams (date : DateSpec) (last geo : Option Int) : Params :=
  let dateStr : Option String :=
    match date with
    | .none => Option.none
    | .str d => some d
    | .slice start stop => some ((start.getD "") ++ ":" ++ (stop.getD ""))
    | .list ds => some (String.intercalate "&" (ds.map (fun _ => "date={d}")))
  { date := dateStr, last := last, geo := geo }

/-- Column membership in `pd.DataFrame(data)` for a list of JSON
objects: the frame's columns are the union of the elements' keys, so a
label `k` is among them exactly when some element carries the key. -/
def hasColumn (data : List JObj) (k : String) : Bool :=
  data.any (fun o => (o.get k).isSome)

/-- Application of an `astype` cast to one cell of the selected frame:
a missing cell (the element lacked the field) stays missing
(`NaT`/`NaN`); a present cell must cast, else `astype` raises
`ValueError`. -/
def castCell {α : Type} (cast : JVal → Option α) :
    Option JVal → Except DecodeError (Option α)
  | Option.none => .ok Option.none
  | some v =>
    match cast v with
    | some a => .ok (some a)
    | Option.none => .error .valueError

/-- Whether one cell survives its `astype` cast: a missing cell always
does; a present cell does exactly when its value parses. -/
def castCellOk {α : Type} (cast : JVal → Option α) : Option JVal → Bool
  | Option.none => true
  | some v => (cast v).isSome

/-- The record that `Data` element `o` contributes after projection,
the two casts and `set_index("Fecha")`: its `Fecha` and `Valor` cells
pushed through the column casts, every other field discarded. -/
def rowOf (o : JObj) : SeriesRecord :=
  { fecha := (JObj.get o "Fecha").bind fechaCast,
    valor := (JObj.get o "Valor").bind valorCast }

/-- Decoding of one element's row: both cells are cast, the first
unparseable present cell raising `ValueError` (`astype` casts the whole
frame, but since the modelled error carries no position the first
failing cell determines the same observable outcome). -/
def decodeRow (o : JObj) : Except DecodeError SeriesRecord :=
  match castCell fechaCast (JObj.get o "Fecha") with
  | .error e => .error e
  | .ok f =>
    match castCell valorCast (JObj.get o "Valor") with
    | .error e => .error e
    | .ok v => .ok { fecha := f, valor := v }

/-- Decoding of all rows in order; the first failing row's error
propagates. -/
def decodeRows : List JObj → Except DecodeError (List SeriesRecord)
  | [] => .ok []
  | o :: rest =>
    match decodeRow o with
    | .error e => .error e
    | .ok r =>
      match decodeRows rest with
      | .error e => .error e
      | .ok rs => .ok (r :: rs)

/-- The decode block of `get_series` (lines 116-119):
`pd.DataFrame(series_dict["Data"])[["Fecha", "Valor"]]` then
`astype({Fecha: "datetime64[ms]", Valor: "float64"}).set_index("Fecha")`.
A payload without `Data` raises `KeyError("Data")`; selecting the two
columns raises a `KeyError` when either label is absent from the frame's
columns (in particular when `Data` is the empty list, whose frame has no
columns); then `astype` raises `ValueError` on any present cell that
does not parse into its target type; otherwise row `i` holds element
`i`'s cast `Fecha` and `Valor` cells, a field missing from that one
element becoming `NaT`/`NaN`. -/
def decodePayload (p : Payload) : Except DecodeError (List SeriesRecord) :=
  match p.data with
  | Option.none => .error (.keyError "Data")
  | some data =>
    if hasColumn data "Fecha" && hasColumn data "Valor"
    then decodeRows data
    else .error (.keyError "columns")

/-- The request issued by `get_series`:
`self.get_input(f"DATOS_SERIE/{series}", **params)`. -/
def INE.get_series_req (ine : INE) (series : String) (date : DateSpec)
    (last geo : Option Int) : Request :=
  ine.get_input_req ("DATOS_SERIE/" ++ series) (buildParams date last geo)

/-- Function `get_series` end to end, with the HTTP transport injected:
build the parameters, issue the request, decode the payload. -/
def INE.get_series (ine : INE) (transport : Request → Payload)
    (series : String) (date : DateSpec) (last geo : Option Int) :
    Except DecodeError (List SeriesRecord) :=
  decodePayload (transport (ine.get_series_req series date last geo))

/-- The date-defaulting line of `get_ipc`:
`if date is None: date = slice("20000101", None)`. -/
def ipcDate (date : DateSpec) : DateSpec :=
  match date with
  | .none => .slice (some "20000101") Option.none
  | d => d

/-- The request issued by `get_ipc`: the defaulted date forwarded to
`get_series` on series `"IPC206449"`. -/
def INE.get_ipc_req (ine : INE) (date : DateSpec) (last geo : Option Int) :
    Request :=
  ine.get_series_req "IPC206449" (ipcDate date) last geo

/-- Function `get_ipc` end to end:
`return self.get_series("IPC206449", date, last, geo)`. -/
def INE.get_ipc (ine : INE) (transport : Request → Payload)
    (date : DateSpec) (last geo : Option Int) :
    Except DecodeError (List SeriesRecord) :=
  ine.get_series transport "IPC206449" (ipcDate date) last geo

/-- Errors a `get_tables` call can surface: the Python `TypeError`
raised at positional-argument binding, or the `NotImplementedError`
raised by the body. -/
inductive CallError where
  | typeError
  | notImplemented
deriving DecidableEq, Repr

/-- Declared parameter list of `def get_tables():` (line 131) — empty:
the method declaration omits `self`. -/
def get_tables_params : List String := []

/-- Body of `get_tables`: `raise NotImplementedError` alone, so a call
that reaches the body performs no request (the empty request trace) and
no other work before failing. -/
def get_tables_body : List Request × Except CallError (List SeriesRecord) :=
  ([], .error .notImplemented)

/-- Python positional-argument binding: applying a function of
`nparams` declared parameters to `nargs` positional arguments raises
`TypeError` before the body runs (so no request is performed) when the
counts disagree, and runs the body otherwise. -/
def callFunction (nparams nargs : Nat)
    (body : List Request × Except CallError (List SeriesRecord)) :
    List Request × Except CallError (List SeriesRecord) :=
  if nargs = nparams then body else ([], .error .typeError)

/-- An instance call `ine.get_tables()`: the bound method prepends
`self`, so the zero-parameter function receives one positional
argument. -/
def INE.get_tables_call (_ : INE) :
    List Request × Except CallError (List SeriesRecord) :=
  callFunction get_tables_params.length 1 get_tables_body

/-- C1: for every half-open date range given as a slice (start, stop),
`get_series` emits exactly one `date` parameter whose value is
start ++ ":" ++ stop with an absent bound rendered as the empty string
on that side; in particular `slice("20000101", None)` yields
`"20000101:"` and `slice(None, "20201231")` yields `":20201231"`; no
other date encoding arises for a slice input. -/
theorem slice_date_encoding (ine : INE) (s : String)
    (start stop : Option String) (last geo : Option Int) :
    (ine.get_series_req s (DateSpec.slice start stop) last geo).params
      = { date := some ((start.getD "") ++ ":" ++ (stop.getD "")),
          last := last, geo := geo }
    ∧ (buildParams (DateSpec.slice (some "20000101") Option.none)
        Option.none Option.none).date = some "20000101:"
    ∧ (buildParams (DateSpec.slice Option.none (some "20201231"))
        Option.none Option.none).date = some ":20201231" :=
  ⟨rfl, rfl, rfl⟩

/-- C2: the list branch of `get_series` joins the fixed literal string
`"date={d}"` (the source lacks the f-prefix), so for the input list
`["20200101", "20200102"]` the emitted `date` value is the template
text `"date={d}&date={d}"`, not the claimed join of the dates
`"20200101&date=20200102"`. -/
theorem list_date_literal_join :
    (buildParams (DateSpec.list ["20200101", "20200102"])
        Option.none Option.none).date = some "date={d}&date={d}"
    ∧ (buildParams (DateSpec.list ["20200101", "20200102"])
        Option.none Option.none).date ≠ some "20200101&date=20200102" :=
  ⟨rfl, by decide⟩

/-- C5: an absent (None) date emits no `date` key whatever `last` and
`geo` are, and a single literal date string `d` with no last and no geo
yields the parameter set holding only `date = d`. -/
theorem single_date_verbatim (ine : INE) (s d : String)
    (last geo : Option Int) :
    (ine.get_series_req s DateSpec.none last geo).params.date = Option.none
    ∧ (ine.get_series_req s (DateSpec.str d) Option.none Option.none).params
      = { date := some d, last := Option.none, geo := Option.none } :=
  ⟨rfl, rfl⟩

/-- C6: with only `last = n` (n positive) the parameter set is exactly
`last = n` with no `date` and no `geo` key, and `geo = 1` combined with
`last = 5` yields exactly those two keys with no `date` key. -/
theorem last_and_geo_params (ine : INE) (s : String) (n : Int)
    (h : 0 < n) :
    (ine.get_series_req s DateSpec.none (some n) Option.none).params
      = { date := Option.none, last := some n, geo := Option.none }
    ∧ (ine.get_series_req s DateSpec.none (some 5) (some 1)).params
      = { date := Option.none, last := some 5, geo := some 1 } :=
  ⟨rfl, rfl⟩

/-- Witness for C6 at `n = 3`. -/
theorem last_and_geo_params_witness :
    (INE.init.get_series_req "IPC206449" DateSpec.none (some 3)
        Option.none).params
      = { date := Option.none, last := some 3, geo := Option.none }
    ∧ (INE.init.get_series_req "IPC206449" DateSpec.none (some 5)
        (some 1)).params
      = { date := Option.none, last := some 5, geo := some 1 } :=
  last_and_geo_params INE.init "IPC206449" 3 (by decide)

/-- C7: line 131 declares `def get_tables():` without `self`, so the
instance call `INE().get_tables()` passes one positional argument to a
zero-parameter function and fails at binding with `TypeError`, never
reaching the body's `raise NotImplementedError` — refuting the claimed
unconditional `NotImplemented` failure (only the zero-argument
class-level call reaches the body).  No request is performed on either
path. -/
theorem get_tables_instance_call_type_error :
    INE.init.get_tables_call = ([], Except.error CallError.typeError)
    ∧ CallError.typeError ≠ CallError.notImplemented
    ∧ callFunction get_tables_params.length 0 get_tables_body
      = ([], Except.error CallError.notImplemented) :=
  ⟨rfl, by decide, rfl⟩

/-- C8: `set_language` replaces the whole client state with the new
base URL (the endpoint is the only observable state), and a subsequent
request differs from the same request on the old client only in the URL
prefix: its parameters are unchanged and its URL is the new prefix
followed by the path.  Completed calls are values already returned and
are untouched (the embedding is purely functional, and `decodePayload`
does not read the client at all). -/
theorem set_language_frame (ine : INE) (language path : String)
    (ps : Params) :
    ine.set_language language
      = { endpoint := "https://servicios.ine.es/wstempus/js/" ++ language }
    ∧ ((ine.set_language language).get_input_req path ps).params
      = (ine.get_input_req path ps).params
    ∧ ((ine.set_language language).get_input_req path ps).url
      = "https://servicios.ine.es/wstempus/js/" ++ language ++ "/" ++ path :=
  ⟨rfl, rfl, rfl⟩

/-- C9: a freshly constructed client has base URL
`https://servicios.ine.es/wstempus/js/ES`, the very state any client
reaches through `set_language("ES")`, and every request issued before
any `set_language` call carries that prefix. -/
theorem init_defaults_to_spanish (ine : INE) (path : String)
    (ps : Params) :
    INE.init.endpoint = "https://servicios.ine.es/wstempus/js/ES"
    ∧ ine.set_language "ES" = INE.init
    ∧ (INE.init.get_input_req path ps).url
      = "https://servicios.ine.es/wstempus/js/ES" ++ "/" ++ path :=
  ⟨rfl, rfl, rfl⟩

/-- C10: `get_ipc` with `date = None` substitutes
`slice("20000101", None)` and queries series `"IPC206449"`, so the
request carries `date = "20000101:"` and targets
`{endpoint}/DATOS_SERIE/IPC206449`; a non-None date is forwarded to
`get_series` unchanged. -/
theorem get_ipc_defaults (ine : INE) (transport : Request → Payload)
    (d : DateSpec) (last geo : Option Int) (h : d ≠ DateSpec.none) :
    (ine.get_ipc_req DateSpec.none last geo).params.date
      = some "20000101:"
    ∧ (ine.get_ipc_req DateSpec.none last geo).url
      = ine.endpoint ++ "/" ++ "DATOS_SERIE/IPC206449"
    ∧ ine.get_ipc transport d last geo
      = ine.get_series transport "IPC206449" d last geo := by
  refine ⟨rfl, rfl, ?_⟩
  cases d with
  | none => exact absurd rfl h
  | str _ => rfl
  | slice _ _ => rfl
  | list _ => rfl

/-- Witness for C10 at a concrete non-None date. -/
theorem get_ipc_defaults_witness :
    (INE.init.get_ipc_req DateSpec.none Option.none Option.none).params.date
      = some "20000101:"
    ∧ (INE.init.get_ipc_req DateSpec.none Option.none Option.none).url
      = INE.init.endpoint ++ "/" ++ "DATOS_SERIE/IPC206449"
    ∧ INE.init.get_ipc (fun _ => { data := Option.none })
        (DateSpec.str "20200101") Option.none Option.none
      = INE.init.get_series (fun _ => { data := Option.none })
        "IPC206449" (DateSpec.str "20200101") Option.none Option.none :=
  get_ipc_defaults INE.init (fun _ => { data := Option.none })
    (DateSpec.str "20200101") Option.none Option.none (by decide)

/-- Characterisation helper: a cell whose cast succeeds (or which is
missing) is mapped by `castCell` to its `bind` through the cast. -/
lemma castCell_ok_of {α : Type} (cast : JVal → Option α) (c : Option JVal)
    (h : castCellOk cast c = true) :
    castCell cast c = Except.ok (c.bind cast) := by
  cases c with
  | none => rfl
  | some v =>
    obtain ⟨a, ha⟩ := Option.isSome_iff_exists.mp h
    simp [castCell, ha]

/-- Characterisation helper: a present cell whose cast fails is mapped
by `castCell` to the `ValueError`. -/
lemma castCell_err_of {α : Type} (cast : JVal → Option α) (c : Option JVal)
    (h : castCellOk cast c = false) :
    castCell cast c = Except.error DecodeError.valueError := by
  cases c with
  | none => exact absurd h (by simp [castCellOk])
  | some v =>
    have hv : cast v = Option.none := by
      cases hc : cast v with
      | none => rfl
      | some a => simp [castCellOk, hc] at h
    simp [castCell, hv]

/-- Row helper: when both cells survive their casts the row decodes to
its projection. -/
lemma decodeRow_ok (o : JObj)
    (hF : castCellOk fechaCast (JObj.get o "Fecha") = true)
    (hV : castCellOk valorCast (JObj.get o "Valor") = true) :
    decodeRow o = Except.ok (rowOf o) := by
  simp [decodeRow, castCell_ok_of _ _ hF, castCell_ok_of _ _ hV, rowOf]

/-- Row helper: a row with a present cell whose cast fails decodes to
the `ValueError`. -/
lemma decodeRow_err (o : JObj)
    (h : castCellOk fechaCast (JObj.get o "Fecha") = false
        ∨ castCellOk valorCast (JObj.get o "Valor") = false) :
    decodeRow o = Except.error DecodeError.valueError := by
  rcases h with h | h
  · simp [decodeRow, castCell_err_of _ _ h]
  · cases hF : castCellOk fechaCast (JObj.get o "Fecha") with
    | false => simp [decodeRow, castCell_err_of _ _ hF]
    | true => simp [decodeRow, castCell_ok_of _ _ hF, castCell_err_of _ _ h]

/-- Rows helper: when every row's cells survive their casts, decoding
yields the projections in order. -/
lemma decodeRows_ok (data : List JObj)
    (h : ∀ o ∈ data, castCellOk fechaCast (JObj.get o "Fecha") = true
        ∧ castCellOk valorCast (JObj.get o "Valor") = true) :
    decodeRows data = Except.ok (data.map rowOf) := by
  induction data with
  | nil => rfl
  | cons a t ih =>
    have ha := h a (List.mem_cons_self a t)
    have ht : decodeRows t = Except.ok (t.map rowOf) :=
      ih (fun o ho => h o (List.mem_cons_of_mem a ho))
    simp [decodeRows, decodeRow_ok a ha.1 ha.2, ht]

/-- Rows helper: one present uncastable cell anywhere makes the whole
decode fail with the `ValueError`. -/
lemma decodeRows_err (data : List JObj)
    (h : ∃ o ∈ data, castCellOk fechaCast (JObj.get o "Fecha") = false
        ∨ castCellOk valorCast (JObj.get o "Valor") = false) :
    decodeRows data = Except.error DecodeError.valueError := by
  induction data with
  | nil =>
    obtain ⟨o, ho, _⟩ := h
    exact absurd ho (List.not_mem_nil o)
  | cons a t ih =>
    cases hFa : castCellOk fechaCast (JObj.get a "Fecha") with
    | false => simp [decodeRows, decodeRow_err a (Or.inl hFa)]
    | true =>
      cases hVa : castCellOk valorCast (JObj.get a "Valor") with
      | false => simp [decodeRows, decodeRow_err a (Or.inr hVa)]
      | true =>
        have ht : decodeRows t = Except.error DecodeError.valueError := by
          apply ih
          obtain ⟨o, ho, hbad⟩ := h
          rcases List.mem_cons.mp ho with rfl | hot
          · rcases hbad with hb | hb
            · simp [hFa] at hb
            · simp [hVa] at hb
          · exact ⟨o, hot, hbad⟩
        simp [decodeRows, decodeRow_ok a hFa hVa, ht]

/-- Cell helper: a successful `bind` through a cast shows the cell is
present-or-missing-compatible: the field lookup succeeded and the cast
succeeds. -/
lemma castCellOk_of_bind_isSome {α : Type} (cast : JVal → Option α)
    (c : Option JVal) (h : (c.bind cast).isSome = true) :
    c.isSome = true ∧ castCellOk cast c = true := by
  cases c with
  | none => exact absurd h (by simp)
  | some v => exact ⟨rfl, h⟩

/-- Counterexample to C3 at k = 0: with `Data = []` the frame has no
columns, so selecting `["Fecha", "Valor"]` raises a `KeyError` instead
of returning the empty result the claim demands. -/
theorem decode_empty_data_fails :
    decodePayload { data := some [] }
      = Except.error (DecodeError.keyError "columns") :=
  rfl

/-- C3 (amended to k ≥ 1): for a nonempty `Data` list whose every
element carries `Fecha` and `Valor` with values convertible to their
target types, decoding succeeds with exactly one record per element in
the same order, record i holding element i's `Fecha` cast to the
millisecond timestamp and element i's `Valor` cast to the float64
column value, all other fields discarded. -/
theorem decode_projects_in_order (data : List JObj) (hne : data ≠ [])
    (hall : ∀ o ∈ data,
      ((JObj.get o "Fecha").bind fechaCast).isSome
        ∧ ((JObj.get o "Valor").bind valorCast).isSome) :
    ∃ recs : List SeriesRecord,
      decodePayload { data := some data } = Except.ok recs
      ∧ recs.length = data.length
      ∧ ∀ i : Nat, recs[i]? = (data[i]?).map rowOf := by
  have hok : ∀ o ∈ data,
      castCellOk fechaCast (JObj.get o "Fecha") = true
        ∧ castCellOk valorCast (JObj.get o "Valor") = true :=
    fun o ho => ⟨(castCellOk_of_bind_isSome _ _ (hall o ho).1).2,
                 (castCellOk_of_bind_isSome _ _ (hall o ho).2).2⟩
  obtain ⟨o0, ho0⟩ : ∃ o, o ∈ data := by
    cases data with
    | nil => exact absurd rfl hne
    | cons a t => exact ⟨a, List.mem_cons_self a t⟩
  have hF : hasColumn data "Fecha" = true := by
    simp only [hasColumn, List.any_eq_true]
    exact ⟨o0, ho0, (castCellOk_of_bind_isSome _ _ (hall o0 ho0).1).1⟩
  have hV : hasColumn data "Valor" = true := by
    simp only [hasColumn, List.any_eq_true]
    exact ⟨o0, ho0, (castCellOk_of_bind_isSome _ _ (hall o0 ho0).2).1⟩
  refine ⟨data.map rowOf, ?_, ?_, ?_⟩
  · simp [decodePayload, hF, hV, decodeRows_ok data hok]
  · simp
  · intro i
    simp [List.getElem?_map]

/-- Witness for C3 (amended) on a one-element payload. -/
theorem decode_projects_in_order_witness :
    ∃ recs : List SeriesRecord,
      decodePayload
          { data := some [[("Fecha", JVal.num 946684800000),
                           ("Valor", JVal.num 100)]] }
        = Except.ok recs
      ∧ recs.length
          = [[("Fecha", JVal.num 946684800000),
              ("Valor", JVal.num 100)]].length
      ∧ ∀ i : Nat, recs[i]?
          = ([[("Fecha", JVal.num 946684800000),
               ("Valor", JVal.num 100)]][i]?).map rowOf :=
  decode_projects_in_order _ (by decide) (by decide)

/-- Counterexample to C4: in the payload whose second `Data` element
lacks `Valor`, decoding does not fail at all — the missing cell is
silently coerced to a missing value (`NaN`) and two records are
returned, contradicting the claimed `MalformedResponse` failure. -/
theorem decode_partial_missing_succeeds :
    decodePayload
        { data := some [[("Fecha", JVal.num 1), ("Valor", JVal.num 2)],
                        [("Fecha", JVal.num 3)]] }
      = Except.ok [{ fecha := some 1, valor := some 2 },
                   { fecha := some 3, valor := Option.none }] :=
  rfl

/-- C4 (amended): no `MalformedResponse` exists and no failure carries
the offending element's position — decoding fails with `KeyError
("Data")` when the payload lacks `Data`; with a column-selection
`KeyError` when no element at all carries `Fecha` (or none carries
`Valor`); with the positionless `ValueError` of `astype` when, the
columns being selectable, some present `Fecha`/`Valor` cell fails to
parse into its target type; and when each field appears in at least one
element and every present cell parses, decoding succeeds with one
record per element, any element-local gap coerced to a missing value
rather than an error. -/
theorem decode_failure_modes (p : Payload) :
    (p.data = Option.none →
      decodePayload p = Except.error (DecodeError.keyError "Data"))
    ∧ (∀ data, p.data = some data →
        (((∀ o ∈ data, JObj.get o "Fecha" = Option.none)
            ∨ (∀ o ∈ data, JObj.get o "Valor" = Option.none)) →
          decodePayload p = Except.error (DecodeError.keyError "columns"))
        ∧ ((∃ o ∈ data, (JObj.get o "Fecha").isSome)
            → (∃ o ∈ data, (JObj.get o "Valor").isSome)
            → (∀ o ∈ data, castCellOk fechaCast (JObj.get o "Fecha") = true
                ∧ castCellOk valorCast (JObj.get o "Valor") = true)
            → ∃ recs, decodePayload p = Except.ok recs
                ∧ recs.length = data.length)
        ∧ ((∃ o ∈ data, (JObj.get o "Fecha").isSome)
            → (∃ o ∈ data, (JObj.get o "Valor").isSome)
            → (∃ o ∈ data,
                castCellOk fechaCast (JObj.get o "Fecha") = false
                ∨ castCellOk valorCast (JObj.get o "Valor") = false)
            → decodePayload p = Except.error DecodeError.valueError)) := by
  refine ⟨fun h => ?_, fun data hdata =>
    ⟨fun habs => ?_, fun hF hV hok => ?_, fun hF hV hbad => ?_⟩⟩
  · simp [decodePayload, h]
  · have hcol : (hasColumn data "Fecha" && hasColumn data "Valor") = false := by
      rcases habs with hab | hab
      · have : hasColumn data "Fecha" = false := by
          simp only [hasColumn, List.any_eq_false]
          intro o ho
          simp [hab o ho]
        simp [this]
      · have : hasColumn data "Valor" = false := by
          simp only [hasColumn, List.any_eq_false]
          intro o ho
          simp [hab o ho]
        simp [this]
    simp [decodePayload, hdata, hcol]
  · obtain ⟨oF, hoF, hoF2⟩ := hF
    obtain ⟨oV, hoV, hoV2⟩ := hV
    have hcF : hasColumn data "Fecha" = true := by
      simp only [hasColumn, List.any_eq_true]
      exact ⟨oF, hoF, hoF2⟩
    have hcV : hasColumn data "Valor" = true := by
      simp only [hasColumn, List.any_eq_true]
      exact ⟨oV, hoV, hoV2⟩
    exact ⟨data.map rowOf,
      by simp [decodePayload, hdata, hcF, hcV, decodeRows_ok data hok],
      by simp⟩
  · obtain ⟨oF, hoF, hoF2⟩ := hF
    obtain ⟨oV, hoV, hoV2⟩ := hV
    have hcF : hasColumn data "Fecha" = true := by
      simp only [hasColumn, List.any_eq_true]
      exact ⟨oF, hoF, hoF2⟩
    have hcV : hasColumn data "Valor" = true := by
      simp only [hasColumn, List.any_eq_true]
      exact ⟨oV, hoV, hoV2⟩
    simp [decodePayload, hdata, hcF, hcV, decodeRows_err data hbad]

/-- Witness for C4 (amended): each branch exercised at a concrete
payload — absent `Data`, a `Data` whose elements never carry `Valor`,
a `Data` carrying both fields with parseable values, and a `Data`
whose present `Valor` cell is the unparseable string `"abc"`. -/
theorem decode_failure_modes_witness :
    decodePayload { data := Option.none }
      = Except.error (DecodeError.keyError "Data")
    ∧ decodePayload { data := some [[("Fecha", JVal.num 1)]] }
      = Except.error (DecodeError.keyError "columns")
    ∧ (∃ recs, decodePayload
          { data := some [[("Fecha", JVal.num 1), ("Valor", JVal.num 2)]] }
        = Except.ok recs ∧ recs.length = 1)
    ∧ decodePayload
        { data := some [[("Fecha", JVal.num 1),
                         ("Valor", JVal.str "abc")]] }
      = Except.error DecodeError.valueError :=
  ⟨(decode_failure_modes { data := Option.none }).1 rfl,
   (((decode_failure_modes
        { data := some [[("Fecha", JVal.num 1)]] }).2 _ rfl).1
      (Or.inr (by decide))),
   by
    have h := (((decode_failure_modes
        { data := some [[("Fecha", JVal.num 1),
                         ("Valor", JVal.num 2)]] }).2 _ rfl).2.1
      (by decide) (by decide) (by decide))
    simpa using h,
   (((decode_failure_modes
        { data := some [[("Fecha", JVal.num 1),
                         ("Valor", JVal.str "abc")]] }).2 _ rfl).2.2
      (by decide) (by decide) (by decide))⟩

end IneClient
